import Mathlib

/-!
Shallow embedding of the jsSMS Z80 dynamic-recompiler front-end:
the IR node library (`n`), the opcode combinator library (`o`) and the
main opcode table from `src/compiler/opcodes.js`, together with the
`DD`/`FD` index-table factory `generateIndexTable`.

JavaScript objects of the IR are modelled as inductive types, the
combinators as Lean functions; optional JavaScript parameters become
`Option` arguments.  External constants that the file consumes from the
CPU module (`F_*` flag masks, `sms.cpu.SZP_TABLE`) are not under `src/`
and are modelled from the specification where indicated.
-/

set_option maxRecDepth 100000
set_option maxHeartbeats 1000000

namespace JsSMS

/-- Operand-kind constant, `var UINT8 = 1` in the source. -/
def UINT8 : Nat := 1

/-- Operand-kind constant, `var INT8 = 2` in the source. -/
def INT8 : Nat := 2

/-- Operand-kind constant, `var UINT16 = 3` in the source. -/
def UINT16 : Nat := 3

/-- Expression nodes of the IR (`n.Literal`, `n.Identifier`, `n.Register`,
`n.MemberExpression`, `n.BinaryExpression`, `n.AssignmentExpression`,
`n.CallExpression`).  `MemberExpression` is always computed (bracket
indexing) and `CallExpression`'s callee is always wrapped as an
`Identifier` by the source, so only its name is kept. -/
inductive Expr where
  | Literal (value : Int)
  | Identifier (name : String)
  | Register (name : String)
  | MemberExpression (object property : Expr)
  | BinaryExpression (operator : String) (left right : Expr)
  | AssignmentExpression (operator : String) (left right : Expr)
  | CallExpression (callee : String) (args : List Expr)

/-- Statement nodes of the IR (`n.ExpressionStatement`, `n.IfStatement`,
`n.BlockStatement`, `n.ReturnStatement`).  `IfStatement.alternate` and
`ReturnStatement.argument` default to `null` in the source, modelled as
`Option`. -/
inductive Stmt where
  | ExpressionStatement (expression : Expr)
  | IfStatement (test : Expr) (consequent : Stmt) (alternate : Option Stmt)
  | BlockStatement (body : List Stmt)
  | ReturnStatement (argument : Option Expr)

/-- Modelled from the spec: flag constant `F_CARRY`, an 8-bit mask with a
single distinct bit, defined externally to `src/` (spec section 3,
"Flag Constants"). -/
def F_CARRY : Int := 0x01

/-- Modelled from the spec: flag constant `F_PARITY` (external, single bit). -/
def F_PARITY : Int := 0x04

/-- Modelled from the spec: flag constant `F_HALFCARRY` (external, single bit). -/
def F_HALFCARRY : Int := 0x10

/-- Modelled from the spec: flag constant `F_ZERO` (external, single bit). -/
def F_ZERO : Int := 0x40

/-- Modelled from the spec: flag constant `F_SIGN` (external, single bit). -/
def F_SIGN : Int := 0x80

/-- Modelled from the spec: `sms.cpu.SZP_TABLE`, the "precomputed 256-entry
table mapping an 8-bit result to its sign/zero/parity flag bits"; the table
itself lives in the CPU module, outside `src/`.  Sign is the top bit of the
result, zero is set for result 0, parity is set when the number of one bits
is even. -/
def sms_cpu_SZP_TABLE (v : Nat) : Int :=
  (if v = 0 then F_ZERO else 0) +
  (if 0x80 ≤ v then F_SIGN else 0) +
  (if (v % 2 + v / 2 % 2 + v / 4 % 2 + v / 8 % 2 +
       v / 16 % 2 + v / 32 % 2 + v / 64 % 2 + v / 128 % 2) % 2 = 0
   then F_PARITY else 0)

/-- A pending emitter: the function returned by every combinator of `o`.
It receives `(value, target, currentAddress)` — any of which a given
emitter may ignore — and yields the emitted IR statements.  The source
returns either nothing, a single statement or an array of statements;
all three are normalised to a `List Stmt` here (nothing ↦ `[]`,
one statement ↦ a one-element list). -/
abbrev Emitter := Int → Int → Int → List Stmt

/-- JavaScript string coercion for optional register-name parameters:
a missing argument stringifies as `"undefined"` when concatenated.  Only
the dead branches of the combinators ever coerce a missing argument. -/
def jsStr : Option String → String
  | some s => s
  | none => "undefined"

/-- JavaScript number coercion for an optional numeric parameter; all live
call sites pass a number. -/
def jsInt : Option Int → Int
  | some v => v
  | none => 0

/-- `.toUpperCase()` on an ASCII register-pair name. -/
def jsUpper (s : String) : String := ⟨s.data.map Char.toUpper⟩

/-- `.toLowerCase()` on an ASCII register name. -/
def jsLower (s : String) : String := ⟨s.data.map Char.toLower⟩

namespace o

/-- `o.READ_MEM8(value)` — `readMem(value)`. -/
def READ_MEM8 (value : Expr) : Expr := .CallExpression "readMem" [value]

/-- `o.READ_MEM16(value)` — `readMemWord(value)`. -/
def READ_MEM16 (value : Expr) : Expr := .CallExpression "readMemWord" [value]

/-- `o.NOOP()` — the returned emitter produces no statement
(the source's inner function just returns `undefined`). -/
def NOOP : Emitter := fun _ _ _ => []

/-- `o.LD8(srcRegister, dstRegister1, dstRegister2)` with its four
argument-presence branches (`LD B,n` / `LD B,C` / `LD A,(nn)` / `LD A,(BC)`). -/
def LD8 (srcRegister : String) (dstRegister1 dstRegister2 : Option String) : Emitter :=
  if dstRegister1 = none ∧ dstRegister2 = none then
    -- Direct value assignment (ex: `LD B,n`).
    fun value _ _ =>
      [.ExpressionStatement
        (.AssignmentExpression "=" (.Register srcRegister) (.Literal value))]
  else if dstRegister2 = none then
    -- Register assignment (ex: `LD B,C`).
    fun _ _ _ =>
      [.ExpressionStatement
        (.AssignmentExpression "=" (.Register srcRegister) (.Register (jsStr dstRegister1)))]
  else if dstRegister1 = some "n" ∧ dstRegister2 = some "n" then
    -- Direct address value assignment (ex: `LD A,(nn)`).
    fun value _ _ =>
      [.ExpressionStatement
        (.AssignmentExpression "=" (.Register srcRegister) (READ_MEM8 (.Literal value)))]
  else
    -- Register address value assignment (ex: `LD A,(BC)`).
    fun _ _ _ =>
      [.ExpressionStatement
        (.AssignmentExpression "=" (.Register srcRegister)
          (READ_MEM8 (.CallExpression
            ("get" ++ jsUpper (jsStr dstRegister1 ++ jsStr dstRegister2)) [])))]

/-- `o.LD16(srcRegister1, srcRegister2, dstRegister1, dstRegister2)`.
Two tolerated shapes; anything else throws
`Error('Wrong parameters number')`, modelled with `Except`. -/
def LD16 (srcRegister1 srcRegister2 : String)
    (dstRegister1 dstRegister2 : Option String) : Except String Emitter :=
  if dstRegister1 = none ∧ dstRegister2 = none then
    -- Direct value assignment (ex: `LD HL,nn`).
    .ok fun value _ _ =>
      [.ExpressionStatement
        (.CallExpression ("set" ++ jsUpper (srcRegister1 ++ srcRegister2))
          [.Literal value])]
  else if dstRegister1 = some "n" ∧ dstRegister2 = some "n" then
    -- Direct address value assignment (ex: `LD HL,(nn)`).
    .ok fun value _ _ =>
      [.ExpressionStatement
        (.CallExpression ("set" ++ jsUpper (srcRegister1 ++ srcRegister2))
          [READ_MEM16 (.Literal value)])]
  else
    .error "Wrong parameters number"

/-- `o.LD_WRITE_MEM(srcRegister1, srcRegister2, dstRegister1, dstRegister2)`
with its four branches (`LD (HL),n` / `LD (nn),A` / `LD (nn),HL` / `LD (BC),a`). -/
def LD_WRITE_MEM (srcRegister1 srcRegister2 : String)
    (dstRegister1 dstRegister2 : Option String) : Emitter :=
  if dstRegister1 = none ∧ dstRegister2 = none then
    -- Direct value assignment (ex: `LD (HL),n`).
    fun value _ _ =>
      [.ExpressionStatement
        (.CallExpression "writeMem"
          [.CallExpression ("get" ++ jsUpper (srcRegister1 ++ srcRegister2)) [],
           .Literal value])]
  else if srcRegister1 = "n" ∧ srcRegister2 = "n" ∧ dstRegister2 = none then
    -- Direct address assignment (ex: `LD (nn),A`).
    fun value _ _ =>
      [.ExpressionStatement
        (.CallExpression "writeMem" [.Literal value, .Register (jsStr dstRegister1)])]
  else if srcRegister1 = "n" ∧ srcRegister2 = "n" then
    -- Direct address assignment (ex: `LD (nn),HL`); the second write's
    -- address is `value + 1`, computed at emit time.
    fun value _ _ =>
      [.ExpressionStatement
        (.CallExpression "writeMem" [.Literal value, .Register (jsStr dstRegister2)]),
       .ExpressionStatement
        (.CallExpression "writeMem" [.Literal (value + 1), .Register (jsStr dstRegister1)])]
  else
    -- Register assignment (ex: `LD (BC),a`).
    fun _ _ _ =>
      [.ExpressionStatement
        (.CallExpression "writeMem"
          [.CallExpression ("get" ++ jsUpper (srcRegister1 ++ srcRegister2)) [],
           .Register (jsStr dstRegister1)])]

/-- `o.LD_SP()` — `sp = value`. -/
def LD_SP : Emitter := fun value _ _ =>
  [.ExpressionStatement (.AssignmentExpression "=" (.Identifier "sp") (.Literal value))]

/-- `o.INC8(register)` — `register = inc8(register)`. -/
def INC8 (register : String) : Emitter := fun _ _ _ =>
  [.ExpressionStatement
    (.AssignmentExpression "=" (.Register register)
      (.CallExpression "inc8" [.Register register]))]

/-- `o.INC16(register1, register2)` — `inc<R1R2>()`. -/
def INC16 (register1 register2 : String) : Emitter := fun _ _ _ =>
  [.ExpressionStatement
    (.CallExpression ("inc" ++ jsUpper (register1 ++ register2)) [])]

/-- `o.DEC8(register)` — `register = dec8(register)`. -/
def DEC8 (register : String) : Emitter := fun _ _ _ =>
  [.ExpressionStatement
    (.AssignmentExpression "=" (.Register register)
      (.CallExpression "dec8" [.Register register]))]

/-- `o.DEC16(register1, register2)` — `dec<R1R2>()`. -/
def DEC16 (register1 register2 : String) : Emitter := fun _ _ _ =>
  [.ExpressionStatement
    (.CallExpression ("dec" ++ jsUpper (register1 ++ register2)) [])]

/-- `o.ADD16(register1, register2, register3, register4)` —
`set<R1R2>(add16(get<R1R2>(), get<R3R4>()))`. -/
def ADD16 (register1 register2 register3 register4 : String) : Emitter := fun _ _ _ =>
  [.ExpressionStatement
    (.CallExpression ("set" ++ jsUpper (register1 ++ register2))
      [.CallExpression "add16"
        [.CallExpression ("get" ++ jsUpper (register1 ++ register2)) [],
         .CallExpression ("get" ++ jsUpper (register3 ++ register4)) []]])]

/-- `o.EX_AF()` — `exAF()`. -/
def EX_AF : Emitter := fun _ _ _ =>
  [.ExpressionStatement (.CallExpression "exAF" [])]

/-- `o.RLA()` — `rla_a()`. -/
def RLA : Emitter := fun _ _ _ =>
  [.ExpressionStatement (.CallExpression "rla_a" [])]

/-- `o.RRA()` — `rra_a()`. -/
def RRA : Emitter := fun _ _ _ =>
  [.ExpressionStatement (.CallExpression "rra_a" [])]

/-- `o.ADD(register1, register2)` — 0, 1 or 2 register arguments. -/
def ADD (register1 register2 : Option String) : Emitter :=
  if register1 = none ∧ register2 = none then
    fun value _ _ =>
      [.ExpressionStatement (.CallExpression "add_a" [.Literal value])]
  else if register2 = none then
    fun _ _ _ =>
      [.ExpressionStatement (.CallExpression "add_a" [.Register (jsStr register1)])]
  else
    fun _ _ _ =>
      [.ExpressionStatement
        (.CallExpression "add_a"
          [READ_MEM8 (.CallExpression
            ("get" ++ jsUpper (jsStr register1 ++ jsStr register2)) [])])]

/-- `o.SUB(register)` — `sub_a(value)` or `sub_a(register)`. -/
def SUB (register : Option String) : Emitter :=
  if register = none then
    fun value _ _ =>
      [.ExpressionStatement (.CallExpression "sub_a" [.Literal value])]
  else
    fun _ _ _ =>
      [.ExpressionStatement (.CallExpression "sub_a" [.Register (jsStr register)])]

/-- `o.AND(register)` — `a &= x; f = SZP_TABLE[a] | F_HALFCARRY`, collapsed
to the flag-only statement when `register == 'a'`. -/
def AND (register : Option String) : Emitter :=
  if register = none then
    fun value _ _ =>
      [.ExpressionStatement (.AssignmentExpression "&=" (.Register "a") (.Literal value)),
       .ExpressionStatement
        (.AssignmentExpression "=" (.Register "f")
          (.BinaryExpression "|"
            (.MemberExpression (.Identifier "SZP_TABLE") (.Register "a"))
            (.Literal F_HALFCARRY)))]
  else if register ≠ some "a" then
    fun _ _ _ =>
      [.ExpressionStatement
        (.AssignmentExpression "&=" (.Register "a") (.Register (jsStr register))),
       .ExpressionStatement
        (.AssignmentExpression "=" (.Register "f")
          (.BinaryExpression "|"
            (.MemberExpression (.Identifier "SZP_TABLE") (.Register "a"))
            (.Literal F_HALFCARRY)))]
  else
    fun _ _ _ =>
      [.ExpressionStatement
        (.AssignmentExpression "=" (.Register "f")
          (.BinaryExpression "|"
            (.MemberExpression (.Identifier "SZP_TABLE") (.Register "a"))
            (.Literal F_HALFCARRY)))]

/-- `o.XOR(register)` — `a ^= x; f = SZP_TABLE[a]`; for `register == 'a'`
the source collapses to `a = 0; f = <the number sms.cpu.SZP_TABLE[0]>`,
embedding the table entry as a literal. -/
def XOR (register : Option String) : Emitter :=
  if register = none then
    fun value _ _ =>
      [.ExpressionStatement (.AssignmentExpression "^=" (.Register "a") (.Literal value)),
       .ExpressionStatement
        (.AssignmentExpression "=" (.Register "f")
          (.MemberExpression (.Identifier "SZP_TABLE") (.Register "a")))]
  else if register ≠ some "a" then
    fun _ _ _ =>
      [.ExpressionStatement
        (.AssignmentExpression "^=" (.Register "a") (.Register (jsStr register))),
       .ExpressionStatement
        (.AssignmentExpression "=" (.Register "f")
          (.MemberExpression (.Identifier "SZP_TABLE") (.Register "a")))]
  else
    fun _ _ _ =>
      [.ExpressionStatement (.AssignmentExpression "=" (.Register "a") (.Literal 0)),
       .ExpressionStatement
        (.AssignmentExpression "=" (.Register "f") (.Literal (sms_cpu_SZP_TABLE 0)))]

/-- `o.OR(register)` — `a |= register; f = SZP_TABLE[a]`, flag-only when
`register == 'a'`. -/
def OR (register : String) : Emitter :=
  if register ≠ "a" then
    fun _ _ _ =>
      [.ExpressionStatement
        (.AssignmentExpression "|=" (.Register "a") (.Register register)),
       .ExpressionStatement
        (.AssignmentExpression "=" (.Register "f")
          (.MemberExpression (.Identifier "SZP_TABLE") (.Register "a")))]
  else
    fun _ _ _ =>
      [.ExpressionStatement
        (.AssignmentExpression "=" (.Register "f")
          (.MemberExpression (.Identifier "SZP_TABLE") (.Register "a")))]

/-- `o.JR(test)` — `if (test) { pc = target; tstates -= 5; }`.  The inner
function only reads `target`. -/
def JR (test : Expr) : Emitter := fun _ target _ =>
  [.IfStatement test
    (.BlockStatement
      [.ExpressionStatement (.AssignmentExpression "=" (.Identifier "pc") (.Literal target)),
       .ExpressionStatement (.AssignmentExpression "-=" (.Identifier "tstates") (.Literal 5))])
    none]

/-- `o.DJNZ()` — `b = (b - 1) & 0xFF;` followed by the statement built by
`o.JR(b != 0)` at the same target (the source invokes
`o.JR(...)(undefined, target)`; the `JR` emitter ignores the value and
current-address arguments, passed as `0` here). -/
def DJNZ : Emitter := fun _ target _ =>
  .ExpressionStatement
    (.AssignmentExpression "=" (.Register "b")
      (.BinaryExpression "&"
        (.BinaryExpression "-" (.Register "b") (.Literal 1)) (.Literal 0xFF)))
  :: JR (.BinaryExpression "!=" (.Register "b") (.Literal 0)) 0 target 0

/-- `o.RET(operator, bitMask)` — unconditional
`pc = readMemWord(sp); sp += 2; return;` or conditional
`ret((f & bitMask) operator 0)`. -/
def RET (operator : Option String) (bitMask : Option Int) : Emitter :=
  if operator = none ∧ bitMask = none then
    fun _ _ _ =>
      [.ExpressionStatement
        (.AssignmentExpression "=" (.Identifier "pc") (READ_MEM16 (.Identifier "sp"))),
       .ExpressionStatement (.AssignmentExpression "+=" (.Identifier "sp") (.Literal 2)),
       .ReturnStatement none]
  else
    fun _ _ _ =>
      [.ExpressionStatement
        (.CallExpression "ret"
          [.BinaryExpression (jsStr operator)
            (.BinaryExpression "&" (.Register "f") (.Literal (jsInt bitMask)))
            (.Literal 0)])]

/-- `o.JP(operator, bitMask)` — unconditional `pc = target; return;` or
conditional `if ((f & bitMask) operator 0) { pc = target; return; }`. -/
def JP (operator : Option String) (bitMask : Option Int) : Emitter :=
  if operator = none ∧ bitMask = none then
    fun _ target _ =>
      [.ExpressionStatement (.AssignmentExpression "=" (.Identifier "pc") (.Literal target)),
       .ReturnStatement none]
  else
    fun _ target _ =>
      [.IfStatement
        (.BinaryExpression (jsStr operator)
          (.BinaryExpression "&" (.Register "f") (.Literal (jsInt bitMask)))
          (.Literal 0))
        (.BlockStatement
          [.ExpressionStatement
            (.AssignmentExpression "=" (.Identifier "pc") (.Literal target)),
           .ReturnStatement none])
        none]

/-- `o.CALL(operator, bitMask)` — unconditional
`push1(currentAddress + 2); pc = target; return;`; the conditional form
additionally debits 7 tstates inside the taken branch. -/
def CALL (operator : Option String) (bitMask : Option Int) : Emitter :=
  if operator = none ∧ bitMask = none then
    fun _ target currentAddress =>
      [.ExpressionStatement (.CallExpression "push1" [.Literal (currentAddress + 2)]),
       .ExpressionStatement (.AssignmentExpression "=" (.Identifier "pc") (.Literal target)),
       .ReturnStatement none]
  else
    fun _ target currentAddress =>
      [.IfStatement
        (.BinaryExpression (jsStr operator)
          (.BinaryExpression "&" (.Register "f") (.Literal (jsInt bitMask)))
          (.Literal 0))
        (.BlockStatement
          [.ExpressionStatement (.CallExpression "push1" [.Literal (currentAddress + 2)]),
           .ExpressionStatement
            (.AssignmentExpression "=" (.Identifier "pc") (.Literal target)),
           .ExpressionStatement
            (.AssignmentExpression "-=" (.Identifier "tstates") (.Literal 7)),
           .ReturnStatement none])
        none]

/-- `o.RST(targetAddress)` — `push1(currentAddress); pc = targetAddress; return;`. -/
def RST (targetAddress : Int) : Emitter := fun _ _ currentAddress =>
  [.ExpressionStatement (.CallExpression "push1" [.Literal currentAddress]),
   .ExpressionStatement
    (.AssignmentExpression "=" (.Identifier "pc") (.Literal targetAddress)),
   .ReturnStatement none]

end o

/-- The property names of the combinator object `o`, in source order. -/
def oMembers : List String :=
  ["NOOP", "LD8", "LD16", "LD_WRITE_MEM", "LD_SP", "INC8", "INC16", "DEC8",
   "DEC16", "ADD16", "EX_AF", "RLA", "RRA", "ADD", "SUB", "AND", "XOR", "OR",
   "JR", "DJNZ", "RET", "JP", "CALL", "RST", "READ_MEM8", "READ_MEM16"]

/-- An entry of an opcode table: `{name, ast, operand}` object literals in
the source.  All fields are optional — entry `0x1B` of the main table has no
`name` at all (the source misspells the key as `ame`, kept here as its own
field), prefix entries have no `ast`, and `operand` is only sometimes given. -/
structure Opcode where
  name : Option String := none
  ast : Option Emitter := none
  operand : Option Nat := none
  ame : Option String := none

/-- Entries 0x00-0x1F of the main opcode table. -/
def opcodeTable_0 : List Opcode := [
  { name := some "NOP", ast := some o.NOOP },  -- 0x00
  { name := some "LD BC,nn", ast := (o.LD16 "b" "c" none none).toOption, operand := some UINT16 },  -- 0x01
  { name := some "LD (BC),A", ast := some (o.LD_WRITE_MEM "b" "c" (some "a") none) },  -- 0x02
  { name := some "INC BC", ast := some (o.INC16 "b" "c") },  -- 0x03
  { name := some "INC B", ast := some (o.INC8 "b") },  -- 0x04
  { name := some "DEC B", ast := some (o.DEC8 "b") },  -- 0x05
  { name := some "LD B,n", ast := some (o.LD8 "b" none none), operand := some UINT8 },  -- 0x06
  { name := some "RLCA" },  -- 0x07
  { name := some "EX AF AF\x27", ast := some o.EX_AF },  -- 0x08
  { name := some "ADD HL,BC", ast := some (o.ADD16 "h" "l" "b" "c") },  -- 0x09
  { name := some "LD A,(BC)", ast := some (o.LD8 "a" (some "b") (some "c")) },  -- 0x0A
  { name := some "DEC BC", ast := some (o.DEC16 "b" "c") },  -- 0x0B
  { name := some "INC C", ast := some (o.INC8 "c") },  -- 0x0C
  { name := some "DEC C", ast := some (o.DEC8 "c") },  -- 0x0D
  { name := some "LD C,n", ast := some (o.LD8 "c" none none), operand := some UINT8 },  -- 0x0E
  { name := some "RRCA" },  -- 0x0F
  { name := some "DJNZ (PC+e)", ast := some o.DJNZ, operand := some INT8 },  -- 0x10
  { name := some "LD DE,nn", ast := (o.LD16 "d" "e" none none).toOption, operand := some UINT16 },  -- 0x11
  { name := some "LD (DE),A", ast := some (o.LD_WRITE_MEM "d" "e" (some "a") none) },  -- 0x12
  { name := some "INC DE", ast := some (o.INC16 "d" "e") },  -- 0x13
  { name := some "INC D", ast := some (o.INC8 "d") },  -- 0x14
  { name := some "DEC D", ast := some (o.DEC8 "d") },  -- 0x15
  { name := some "LD D,n", ast := some (o.LD8 "d" none none), operand := some UINT8 },  -- 0x16
  { name := some "RLA", ast := some o.RLA },  -- 0x17
  { name := some "JR (PC+e)", operand := some INT8 },  -- 0x18
  { name := some "ADD HL,DE", ast := some (o.ADD16 "h" "l" "d" "e") },  -- 0x19
  { name := some "LD A,(DE)", ast := some (o.LD8 "a" (some "d") (some "e")) },  -- 0x1A
  { ame := some "DEC DE", ast := some (o.DEC16 "d" "e") },  -- 0x1B (the source writes `ame:`, not `name:`)
  { name := some "INC E", ast := some (o.INC8 "e") },  -- 0x1C
  { name := some "DEC E", ast := some (o.DEC8 "e") },  -- 0x1D
  { name := some "LD E,n", ast := some (o.LD8 "e" none none), operand := some UINT8 },  -- 0x1E
  { name := some "RRA", ast := some o.RRA }  -- 0x1F
]

/-- Entries 0x20-0x3F of the main opcode table. -/
def opcodeTable_1 : List Opcode := [
  { name := some "JR NZ,(PC+e)", operand := some INT8 },  -- 0x20
  { name := some "LD HL,nn", ast := (o.LD16 "h" "l" none none).toOption, operand := some UINT16 },  -- 0x21
  { name := some "LD (nn),HL", ast := some (o.LD_WRITE_MEM "n" "n" (some "h") (some "l")), operand := some UINT16 },  -- 0x22
  { name := some "INC HL", ast := some (o.INC16 "h" "l") },  -- 0x23
  { name := some "INC H" },  -- 0x24
  { name := some "DEC H" },  -- 0x25
  { name := some "LD H,n", ast := some (o.LD8 "h" none none), operand := some UINT8 },  -- 0x26
  { name := some "DAA" },  -- 0x27
  { name := some "JR Z,(PC+e)", operand := some INT8 },  -- 0x28
  { name := some "ADD HL,HL", ast := some (o.ADD16 "h" "l" "h" "l") },  -- 0x29
  { name := some "LD HL,(nn)", ast := (o.LD16 "h" "l" (some "n") (some "n")).toOption, operand := some UINT16 },  -- 0x2A
  { name := some "DEC HL" },  -- 0x2B
  { name := some "INC L" },  -- 0x2C
  { name := some "DEC L" },  -- 0x2D
  { name := some "LD L,n", ast := some (o.LD8 "l" none none), operand := some UINT8 },  -- 0x2E
  { name := some "CPL" },  -- 0x2F
  { name := some "JR NC,(PC+e)", operand := some INT8 },  -- 0x30
  { name := some "LD SP,nn", ast := some o.LD_SP, operand := some UINT16 },  -- 0x31
  { name := some "LD (nn),A", ast := some (o.LD_WRITE_MEM "n" "n" (some "a") none), operand := some UINT16 },  -- 0x32
  { name := some "INC SP" },  -- 0x33
  { name := some "INC (HL)" },  -- 0x34
  { name := some "DEC (HL)" },  -- 0x35
  { name := some "LD (HL),n", ast := some (o.LD_WRITE_MEM "h" "l" none none), operand := some UINT8 },  -- 0x36
  { name := some "SCF" },  -- 0x37
  { name := some "JR C,(PC+e)", operand := some INT8 },  -- 0x38
  { name := some "ADD HL,SP" },  -- 0x39
  { name := some "LD A,(nn)", ast := some (o.LD8 "a" (some "n") (some "n")), operand := some UINT16 },  -- 0x3A
  { name := some "DEC SP" },  -- 0x3B
  { name := some "INC A", ast := some (o.INC8 "a") },  -- 0x3C
  { name := some "DEC A", ast := some (o.DEC8 "a") },  -- 0x3D
  { name := some "LD A,n", ast := some (o.LD8 "a" none none), operand := some UINT8 },  -- 0x3E
  { name := some "CCF" }  -- 0x3F
]

/-- Entries 0x40-0x5F of the main opcode table. -/
def opcodeTable_2 : List Opcode := [
  { name := some "LD B,B", ast := some o.NOOP, operand := some UINT8 },  -- 0x40
  { name := some "LD B,C", ast := some (o.LD8 "b" (some "c") none) },  -- 0x41
  { name := some "LD B,D", ast := some (o.LD8 "b" (some "d") none) },  -- 0x42
  { name := some "LD B,E", ast := some (o.LD8 "b" (some "e") none) },  -- 0x43
  { name := some "LD B,H", ast := some (o.LD8 "b" (some "h") none) },  -- 0x44
  { name := some "LD B,L", ast := some (o.LD8 "b" (some "l") none) },  -- 0x45
  { name := some "LD B,(HL)" },  -- 0x46
  { name := some "LD B,A", ast := some (o.LD8 "b" (some "a") none) },  -- 0x47
  { name := some "LD C,B", ast := some (o.LD8 "c" (some "b") none) },  -- 0x48
  { name := some "LD C,C", ast := some o.NOOP },  -- 0x49
  { name := some "LD C,D", ast := some (o.LD8 "c" (some "d") none) },  -- 0x4A
  { name := some "LD C,E", ast := some (o.LD8 "c" (some "e") none) },  -- 0x4B
  { name := some "LD C,H", ast := some (o.LD8 "c" (some "h") none) },  -- 0x4C
  { name := some "LD C,L", ast := some (o.LD8 "c" (some "l") none) },  -- 0x4D
  { name := some "LD C,(HL)" },  -- 0x4E
  { name := some "LD C,A", ast := some (o.LD8 "c" (some "a") none) },  -- 0x4F
  { name := some "LD D,B", ast := some (o.LD8 "d" (some "b") none) },  -- 0x50
  { name := some "LD D,C", ast := some (o.LD8 "d" (some "c") none) },  -- 0x51
  { name := some "LD D,D", ast := some o.NOOP },  -- 0x52
  { name := some "LD D,E", ast := some (o.LD8 "d" (some "e") none) },  -- 0x53
  { name := some "LD D,H", ast := some (o.LD8 "d" (some "h") none) },  -- 0x54
  { name := some "LD D,L", ast := some (o.LD8 "d" (some "l") none) },  -- 0x55
  { name := some "LD D,(HL)" },  -- 0x56
  { name := some "LD D,A", ast := some (o.LD8 "d" (some "a") none) },  -- 0x57
  { name := some "LD E,B", ast := some (o.LD8 "e" (some "b") none) },  -- 0x58
  { name := some "LD E,C", ast := some (o.LD8 "e" (some "c") none) },  -- 0x59
  { name := some "LD E,D", ast := some (o.LD8 "e" (some "d") none) },  -- 0x5A
  { name := some "LD E,E", ast := some o.NOOP },  -- 0x5B
  { name := some "LD E,H", ast := some (o.LD8 "e" (some "h") none) },  -- 0x5C
  { name := some "LD E,L", ast := some (o.LD8 "e" (some "l") none) },  -- 0x5D
  { name := some "LD E,(HL)" },  -- 0x5E
  { name := some "LD E,A", ast := some (o.LD8 "e" (some "a") none) }  -- 0x5F
]

/-- Entries 0x60-0x7F of the main opcode table. -/
def opcodeTable_3 : List Opcode := [
  { name := some "LD H,B", ast := some (o.LD8 "h" (some "b") none) },  -- 0x60
  { name := some "LD H,C", ast := some (o.LD8 "h" (some "c") none) },  -- 0x61
  { name := some "LD H,D", ast := some (o.LD8 "h" (some "d") none) },  -- 0x62
  { name := some "LD H,E", ast := some (o.LD8 "h" (some "e") none) },  -- 0x63
  { name := some "LD H,H", ast := some o.NOOP },  -- 0x64
  { name := some "LD H,L", ast := some (o.LD8 "h" (some "l") none) },  -- 0x65
  { name := some "LD H,(HL)" },  -- 0x66
  { name := some "LD H,A", ast := some (o.LD8 "h" (some "a") none) },  -- 0x67
  { name := some "LD L,B", ast := some (o.LD8 "l" (some "b") none) },  -- 0x68
  { name := some "LD L,C", ast := some (o.LD8 "l" (some "c") none) },  -- 0x69
  { name := some "LD L,D", ast := some (o.LD8 "l" (some "d") none) },  -- 0x6A
  { name := some "LD L,E", ast := some (o.LD8 "l" (some "e") none) },  -- 0x6B
  { name := some "LD L,H", ast := some (o.LD8 "l" (some "h") none) },  -- 0x6C
  { name := some "LD L,L", ast := some o.NOOP },  -- 0x6D
  { name := some "LD L,(HL)" },  -- 0x6E
  { name := some "LD L,A", ast := some (o.LD8 "l" (some "a") none) },  -- 0x6F
  { name := some "LD (HL),B" },  -- 0x70
  { name := some "LD (HL),C" },  -- 0x71
  { name := some "LD (HL),D" },  -- 0x72
  { name := some "LD (HL),E" },  -- 0x73
  { name := some "LD (HL),H" },  -- 0x74
  { name := some "LD (HL),L" },  -- 0x75
  { name := some "HALT" },  -- 0x76
  { name := some "LD (HL),A" },  -- 0x77
  { name := some "LD A,B", ast := some (o.LD8 "a" (some "b") none) },  -- 0x78
  { name := some "LD A,C", ast := some (o.LD8 "a" (some "c") none) },  -- 0x79
  { name := some "LD A,D", ast := some (o.LD8 "a" (some "d") none) },  -- 0x7A
  { name := some "LD A,E", ast := some (o.LD8 "a" (some "e") none) },  -- 0x7B
  { name := some "LD A,H", ast := some (o.LD8 "a" (some "h") none) },  -- 0x7C
  { name := some "LD A,L", ast := some (o.LD8 "a" (some "l") none) },  -- 0x7D
  { name := some "LD A,(HL)", ast := some (o.LD8 "a" (some "h") (some "l")) },  -- 0x7E
  { name := some "LD A,A", ast := some o.NOOP }  -- 0x7F
]

/-- Entries 0x80-0x9F of the main opcode table. -/
def opcodeTable_4 : List Opcode := [
  { name := some "ADD A,B", ast := some (o.ADD (some "b") none) },  -- 0x80
  { name := some "ADD A,C", ast := some (o.ADD (some "c") none) },  -- 0x81
  { name := some "ADD A,D", ast := some (o.ADD (some "d") none) },  -- 0x82
  { name := some "ADD A,E", ast := some (o.ADD (some "e") none) },  -- 0x83
  { name := some "ADD A,H", ast := some (o.ADD (some "h") none) },  -- 0x84
  { name := some "ADD A,L", ast := some (o.ADD (some "l") none) },  -- 0x85
  { name := some "ADD A,(HL)" },  -- 0x86
  { name := some "ADD A,A", ast := some (o.ADD (some "a") none) },  -- 0x87
  { name := some "ADC A,B" },  -- 0x88
  { name := some "ADC A,C" },  -- 0x89
  { name := some "ADC A,D" },  -- 0x8A
  { name := some "ADC A,E" },  -- 0x8B
  { name := some "ADC A,H" },  -- 0x8C
  { name := some "ADC A,L" },  -- 0x8D
  { name := some "ADC A,(HL)" },  -- 0x8E
  { name := some "ADC A,A" },  -- 0x8F
  { name := some "SUB A,B", ast := some (o.SUB (some "b")) },  -- 0x90
  { name := some "SUB A,C", ast := some (o.SUB (some "c")) },  -- 0x91
  { name := some "SUB A,D", ast := some (o.SUB (some "d")) },  -- 0x92
  { name := some "SUB A,E", ast := some (o.SUB (some "e")) },  -- 0x93
  { name := some "SUB A,H", ast := some (o.SUB (some "h")) },  -- 0x94
  { name := some "SUB A,L", ast := some (o.SUB (some "l")) },  -- 0x95
  { name := some "SUB A,(HL)" },  -- 0x96
  { name := some "SUB A,A", ast := some (o.SUB (some "a")) },  -- 0x97
  { name := some "SBC A,B" },  -- 0x98
  { name := some "SBC A,C" },  -- 0x99
  { name := some "SBC A,D" },  -- 0x9A
  { name := some "SBC A,E" },  -- 0x9B
  { name := some "SBC A,H" },  -- 0x9C
  { name := some "SBC A,L" },  -- 0x9D
  { name := some "SBC A,(HL)" },  -- 0x9E
  { name := some "SBC A,A" }  -- 0x9F
]

/-- Entries 0xA0-0xBF of the main opcode table. -/
def opcodeTable_5 : List Opcode := [
  { name := some "AND A,B", ast := some (o.AND (some "b")) },  -- 0xA0
  { name := some "AND A,C", ast := some (o.AND (some "c")) },  -- 0xA1
  { name := some "AND A,D", ast := some (o.AND (some "d")) },  -- 0xA2
  { name := some "AND A,E", ast := some (o.AND (some "e")) },  -- 0xA3
  { name := some "AND A,H", ast := some (o.AND (some "h")) },  -- 0xA4
  { name := some "AND A,L", ast := some (o.AND (some "l")) },  -- 0xA5
  { name := some "AND A,(HL)" },  -- 0xA6
  { name := some "AND A,A", ast := some (o.AND (some "a")) },  -- 0xA7
  { name := some "XOR A,B", ast := some (o.XOR (some "b")) },  -- 0xA8
  { name := some "XOR A,C", ast := some (o.XOR (some "c")) },  -- 0xA9
  { name := some "XOR A,D", ast := some (o.XOR (some "d")) },  -- 0xAA
  { name := some "XOR A,E", ast := some (o.XOR (some "e")) },  -- 0xAB
  { name := some "XOR A,H", ast := some (o.XOR (some "h")) },  -- 0xAC
  { name := some "XOR A,L", ast := some (o.XOR (some "l")) },  -- 0xAD
  { name := some "XOR A,(HL)" },  -- 0xAE
  { name := some "XOR A,A", ast := some (o.XOR (some "a")) },  -- 0xAF
  { name := some "OR A,B", ast := some (o.OR "b") },  -- 0xB0
  { name := some "OR A,C", ast := some (o.OR "c") },  -- 0xB1
  { name := some "OR A,D", ast := some (o.OR "d") },  -- 0xB2
  { name := some "OR A,E", ast := some (o.OR "e") },  -- 0xB3
  { name := some "OR A,H", ast := some (o.OR "h") },  -- 0xB4
  { name := some "OR A,L", ast := some (o.OR "l") },  -- 0xB5
  { name := some "OR A,(HL)" },  -- 0xB6
  { name := some "OR A,A", ast := some (o.OR "a") },  -- 0xB7
  { name := some "CP A,B" },  -- 0xB8
  { name := some "CP A,C" },  -- 0xB9
  { name := some "CP A,D" },  -- 0xBA
  { name := some "CP A,E" },  -- 0xBB
  { name := some "CP A,H" },  -- 0xBC
  { name := some "CP A,L" },  -- 0xBD
  { name := some "CP A,(HL)" },  -- 0xBE
  { name := some "CP A,A" }  -- 0xBF
]

/-- Entries 0xC0-0xDF of the main opcode table. -/
def opcodeTable_6 : List Opcode := [
  { name := some "RET NZ", ast := some (o.RET (some "==") (some F_ZERO)) },  -- 0xC0
  { name := some "POP BC" },  -- 0xC1
  { name := some "JP NZ,(nn)", ast := some (o.JP (some "==") (some F_ZERO)) },  -- 0xC2
  { name := some "JP (nn)", ast := some (o.JP none none) },  -- 0xC3
  { name := some "CALL NZ (nn)", ast := some (o.CALL (some "==") (some F_ZERO)) },  -- 0xC4
  { name := some "PUSH BC" },  -- 0xC5
  { name := some "ADD A,n" },  -- 0xC6
  { name := some "RST 00H", ast := some (o.RST 0x00) },  -- 0xC7
  { name := some "RET Z", ast := some (o.RET (some "!=") (some F_ZERO)) },  -- 0xC8
  { name := some "RET", ast := some (o.RET none none) },  -- 0xC9
  { name := some "JP Z,(nn)", ast := some (o.JP (some "!=") (some F_ZERO)) },  -- 0xCA
  { name := some "" },  -- 0xCB (CB opcode prefix)
  { name := some "CALL Z (nn)", ast := some (o.CALL (some "!=") (some F_ZERO)) },  -- 0xCC
  { name := some "CALL (nn)", ast := some (o.CALL none none) },  -- 0xCD
  { name := some "ADC A,n" },  -- 0xCE
  { name := some "RST 08H", ast := some (o.RST 0x08) },  -- 0xCF
  { name := some "RET NC", ast := some (o.RET (some "==") (some F_CARRY)) },  -- 0xD0
  { name := some "POP DE" },  -- 0xD1
  { name := some "JP NC,(nn)", ast := some (o.JP (some "==") (some F_CARRY)) },  -- 0xD2
  { name := some "OUT (n),A" },  -- 0xD3
  { name := some "CALL NC (nn)", ast := some (o.CALL (some "==") (some F_CARRY)) },  -- 0xD4
  { name := some "PUSH DE" },  -- 0xD5
  { name := some "SUB n", ast := some (o.SUB none) },  -- 0xD6
  { name := some "RST 10H", ast := some (o.RST 0x10) },  -- 0xD7
  { name := some "RET C", ast := some (o.RET (some "!=") (some F_CARRY)) },  -- 0xD8
  { name := some "EXX" },  -- 0xD9
  { name := some "JP C,(nn)", ast := some (o.JP (some "!=") (some F_CARRY)) },  -- 0xDA
  { name := some "IN A,(n)" },  -- 0xDB
  { name := some "CALL C (nn)", ast := some (o.CALL (some "!=") (some F_CARRY)) },  -- 0xDC
  { name := some "" },  -- 0xDD (DD opcode prefix)
  { name := some "SBC A,n" },  -- 0xDE
  { name := some "RST 18H", ast := some (o.RST 0x18) }  -- 0xDF
]

/-- Entries 0xE0-0xFF of the main opcode table. -/
def opcodeTable_7 : List Opcode := [
  { name := some "RET PO", ast := some (o.RET (some "==") (some F_PARITY)) },  -- 0xE0
  { name := some "POP HL" },  -- 0xE1
  { name := some "JP PO,(nn)", ast := some (o.JP (some "==") (some F_PARITY)) },  -- 0xE2
  { name := some "EX (SP),HL" },  -- 0xE3
  { name := some "CALL PO (nn)", ast := some (o.CALL (some "==") (some F_PARITY)) },  -- 0xE4
  { name := some "PUSH HL" },  -- 0xE5
  { name := some "AND (n)", ast := some (o.AND none) },  -- 0xE6
  { name := some "RST 20H", ast := some (o.RST 0x20) },  -- 0xE7
  { name := some "RET PE", ast := some (o.RET (some "!=") (some F_PARITY)) },  -- 0xE8
  { name := some "JP (HL)" },  -- 0xE9
  { name := some "JP PE,(nn)", ast := some (o.JP (some "!=") (some F_PARITY)) },  -- 0xEA
  { name := some "EX DE,HL" },  -- 0xEB
  { name := some "CALL PE (nn)", ast := some (o.CALL (some "!=") (some F_PARITY)) },  -- 0xEC
  { name := some "" },  -- 0xED (ED opcode prefix)
  { name := some "XOR n", ast := some (o.XOR none) },  -- 0xEE
  { name := some "RST 28H", ast := some (o.RST 0x28) },  -- 0xEF
  { name := some "RET P", ast := some (o.RET (some "==") (some F_SIGN)) },  -- 0xF0
  { name := some "POP AF" },  -- 0xF1
  { name := some "JP P,(nn)", ast := some (o.JP (some "==") (some F_SIGN)) },  -- 0xF2
  { name := some "DI" },  -- 0xF3
  { name := some "CALL P (nn)", ast := some (o.CALL (some "==") (some F_SIGN)) },  -- 0xF4
  { name := some "PUSH AF" },  -- 0xF5
  { name := some "OR n" },  -- 0xF6
  { name := some "RST 30H", ast := some (o.RST 0x30) },  -- 0xF7
  { name := some "RET M", ast := some (o.RET (some "!=") (some F_SIGN)) },  -- 0xF8
  { name := some "LD SP,HL" },  -- 0xF9
  { name := some "JP M,(nn)", ast := some (o.JP (some "!=") (some F_SIGN)) },  -- 0xFA
  { name := some "EI" },  -- 0xFB
  { name := some "CALL M (nn)", ast := some (o.CALL (some "!=") (some F_SIGN)) },  -- 0xFC
  { name := some "" },  -- 0xFD (FD opcode prefix)
  { name := some "CP n" },  -- 0xFE
  { name := some "RST 38H", ast := some (o.RST 0x38) }  -- 0xFF
]

/-- The unprefixed 256-entry opcode table, entry per entry from the source.
Entry `0x1B` carries the misspelled `ame` key instead of `name`; entries
`0x18`/`0x20`/`0x28`/`0x30`/`0x38` (the `JR` family) have an `operand` but no
`ast`; entry `0x40` (`LD B,B`) has a `NOOP` ast yet an `operand`; the prefix
slots `0xCB`/`0xDD`/`0xED`/`0xFD` have an empty name. -/
def opcodeTable : List Opcode :=
  opcodeTable_0 ++ opcodeTable_1 ++ opcodeTable_2 ++ opcodeTable_3 ++
  opcodeTable_4 ++ opcodeTable_5 ++ opcodeTable_6 ++ opcodeTable_7

/-- A combinator invocation as written for an `ast:` field of the
`DD`/`FD` index-table factory: the member of `o` that is called, and the
string arguments the call passes (the factory's `register2` and
`register2LC` concatenations already evaluated). -/
structure AstCall where
  comb : String
  args : List String
deriving DecidableEq

/-- A slot of a `DD`/`FD` index table: either an opcode descriptor
`{name, ast, operand}` (the `ast` kept at invocation level, see `AstCall`),
or — slot `0xCB` only — a reference to another opcode table. -/
inductive IndexSlot where
  | descr (name : String) (ast : AstCall) (operand : Option Nat)
  | subTable (table : String)
deriving DecidableEq

/-- `generateIndexTable(index)`, the `DD`/`FD` table factory, slot by slot
from the source.  `register2 = index.substring(1, 2)` and `register2LC` is
its lower-case form.  Slot `0xCB` is the source's
`index == 'IX' ? opcodeTableDDCB : opcodeTableFDCB` (those two tables are
outside `src/`, so the reference is kept by name).  All other keys are
absent, i.e. `none`. -/
def generateIndexTable (index : String) : Nat → Option IndexSlot :=
  let register2 : String := ⟨(index.data.drop 1).take 1⟩
  let register2LC : String := jsLower ⟨(index.data.drop 1).take 1⟩
  fun k =>
    match k with
    | 0x09 => some (.descr ("ADD " ++ index ++ ",BC") ⟨"ADD16", ["i", register2, "b", "c"]⟩ none)
    | 0x19 => some (.descr ("ADD " ++ index ++ ",DE") ⟨"ADD16", ["i", register2, "d", "e"]⟩ none)
    | 0x21 => some (.descr ("LD " ++ index ++ ",nn") ⟨"LD16", ["i", register2]⟩ none)
    | 0x22 => some (.descr ("LD (nn)," ++ index)
        ⟨"LD_NN", ["i" ++ register2LC ++ "H", "i" ++ register2LC ++ "L"]⟩ none)
    | 0x23 => some (.descr ("INC " ++ index) ⟨"INC16", ["i", register2]⟩ none)
    | 0x2A => some (.descr ("LD " ++ index ++ ",(nn)")
        ⟨"LD16", ["i" ++ register2LC ++ "H", "i" ++ register2LC ++ "L", "n", "n"]⟩ (some UINT16))
    | 0x2B => some (.descr ("DEC " ++ index) ⟨"DEC16", ["i", register2]⟩ none)
    | 0x34 => some (.descr ("INC (" ++ index ++ "+d)") ⟨"INC_X", ["i", register2]⟩ none)
    | 0x35 => some (.descr ("DEC (" ++ index ++ "+d)") ⟨"DEC_X", ["i", register2]⟩ none)
    | 0x36 => some (.descr ("LD (" ++ index ++ "+d),n") ⟨"LD_X", ["i", register2]⟩ none)
    | 0x46 => some (.descr ("LD B,(" ++ index ++ "+d)") ⟨"LD8_D", ["b", "i", register2]⟩ none)
    | 0x4E => some (.descr ("LD C,(" ++ index ++ "+d)") ⟨"LD8_D", ["c", "i", register2]⟩ none)
    | 0x56 => some (.descr ("LD D,(" ++ index ++ "+d)") ⟨"LD8_D", ["d", "i", register2]⟩ none)
    | 0x5E => some (.descr ("LD E,(" ++ index ++ "+d)") ⟨"LD8_D", ["e", "i", register2]⟩ none)
    | 0x66 => some (.descr ("LD H,(" ++ index ++ "+d)") ⟨"LD8_D", ["h", "i", register2]⟩ none)
    | 0x6E => some (.descr ("LD L,(" ++ index ++ "+d)") ⟨"LD8_D", ["l", "i", register2]⟩ none)
    | 0x70 => some (.descr ("LD (" ++ index ++ "+d),B") ⟨"LD_X", ["b", "i", register2]⟩ none)
    | 0x71 => some (.descr ("LD (" ++ index ++ "+d),C") ⟨"LD_X", ["c", "i", register2]⟩ none)
    | 0x72 => some (.descr ("LD (" ++ index ++ "+d),D") ⟨"LD_X", ["d", "i", register2]⟩ none)
    | 0x73 => some (.descr ("LD (" ++ index ++ "+d),E") ⟨"LD_X", ["e", "i", register2]⟩ none)
    | 0x74 => some (.descr ("LD (" ++ index ++ "+d),H") ⟨"LD_X", ["h", "i", register2]⟩ none)
    | 0x75 => some (.descr ("LD (" ++ index ++ "+d),L") ⟨"LD_X", ["l", "i", register2]⟩ none)
    | 0x76 => some (.descr ("LD (" ++ index ++ "+d),B") ⟨"LD_X", ["b", "i", register2]⟩ none)
    | 0x77 => some (.descr ("LD (" ++ index ++ "+d),A") ⟨"LD_X", ["a", "i", register2]⟩ none)
    | 0x7E => some (.descr ("LD A,(" ++ index ++ "+d)") ⟨"LD8_D", ["a", "i", register2]⟩ none)
    | 0x86 => some (.descr ("ADD A,(" ++ index ++ "+d)") ⟨"ADD_X", ["i", register2]⟩ none)
    | 0xCB => some (.subTable (if index = "IX" then "opcodeTableDDCB" else "opcodeTableFDCB"))
    | 0xB6 => some (.descr ("OR A,(" ++ index ++ "+d)") ⟨"OR_X", ["i", register2]⟩ none)
    | 0xBE => some (.descr ("CP (" ++ index ++ "+d)") ⟨"CP_X", ["i", register2]⟩ none)
    | 0xE1 => some (.descr ("POP " ++ index) ⟨"POP", ["i", register2]⟩ none)
    | 0xE3 => some (.descr ("EX SP,(" ++ index ++ ")") ⟨"EX_SP_X", ["i", register2]⟩ none)
    | 0xE5 => some (.descr ("PUSH " ++ index)
        ⟨"PUSH", ["i" ++ register2LC ++ "H", "i" ++ register2LC ++ "L"]⟩ none)
    | 0xE9 => some (.descr ("JP (" ++ index ++ ")") ⟨"JP_X", ["i", register2]⟩ none)
    | 0xF9 => some (.descr ("LD SP," ++ index) ⟨"LD_SP", ["i", register2]⟩ none)
    | _ => none

/-- Spec-side register renaming: replace every occurrence of the substring
`IX` by `IY` in a mnemonic (used to state that the `IX` and `IY` tables
differ only in register-name literals). -/
def replaceIXwithIY : List Char → List Char
  | 'I' :: 'X' :: rest => 'I' :: 'Y' :: replaceIXwithIY rest
  | c :: rest => c :: replaceIXwithIY rest
  | [] => []

/-- Spec-side renaming of a descriptor mnemonic, `IX` to `IY`. -/
def renameName (s : String) : String := ⟨replaceIXwithIY s.data⟩

/-- Spec-side renaming of a combinator argument: the derived register
letters `X`/`x` become `Y`/`y` (`"X" ↦ "Y"`, `"ixH" ↦ "iyH"`, …). -/
def renameArg (s : String) : String :=
  ⟨s.data.map fun c => if c = 'X' then 'Y' else if c = 'x' then 'y' else c⟩

/-- Spec-side slot renaming: a descriptor keeps its combinator and operand
tag and only renames register-name literals; the `0xCB` sub-table reference
maps to the corresponding `FDCB` table. -/
def renameIXtoIY : IndexSlot → IndexSlot
  | .descr nm a opnd => .descr (renameName nm) ⟨a.comb, a.args.map renameArg⟩ opnd
  | .subTable _ => .subTable "opcodeTableFDCB"

/-- Whether a table entry has a non-empty `name` string. -/
def nameNonEmpty (e : Opcode) : Bool :=
  match e.name with
  | some s => decide (s ≠ "")
  | none => false

/-- Whether a character list contains `HALT` as a contiguous substring. -/
def listHasHALT : List Char → Bool
  | 'H' :: 'A' :: 'L' :: 'T' :: _ => true
  | _ :: rest => listHasHALT rest
  | [] => false

/-- Whether an index-table slot is free of any `HALT` mnemonic. -/
def slotNoHALT : Option IndexSlot → Bool
  | some (.descr nm _ _) => !(listHasHALT nm.data)
  | _ => true

/-- The combinator names referenced by the `ast:` fields of the populated
slots of `generateIndexTable("IX")`. -/
def referencedCombs : List String :=
  (List.range 256).filterMap fun k =>
    match generateIndexTable "IX" k with
    | some (.descr _ a _) => some a.comb
    | _ => none

/-- Modelled from the spec: `opcodeTableCB` is not under `src/`; spec
section 4.3 describes it as a 256-entry table of bit-manipulation
operations, every entry carrying a human-readable name (spec section 8,
property 1). -/
def opcodeTableCB : List Opcode :=
  (List.range 256).map fun i => { name := some ("CB " ++ toString i) }

/-- Modelled from the spec: `opcodeTableED` is not under `src/`; spec
section 4.3 describes it as a 256-entry table of extended operations,
every entry carrying a human-readable name (spec section 8, property 1). -/
def opcodeTableED : List Opcode :=
  (List.range 256).map fun i => { name := some ("ED " ++ toString i) }

/-- Modelled from the spec: the decoder (not under `src/`) reads an `INT8`
operand as "one signed byte" — sign-extension from 8 bits. -/
def sign_extend (b : Nat) : Int :=
  if 0x80 ≤ b then (b : Int) - 0x100 else (b : Int)

/-- Modelled from the spec: the branch target the decoder computes for a
two-byte `JR`-family instruction, `target = current_pc + 2 + sign_extend(byte)`. -/
def jrTarget (currentPc : Int) (disp : Nat) : Int :=
  currentPc + 2 + sign_extend disp

/-- C1, counterexample: the main opcode table does not give every index a
non-empty name — entry `0x1B` has no `name` field at all (the source
misspells the key as `ame`), and the prefix slot `0xCB` has the empty
string for its name. -/
theorem claim_C1_counterexample :
    opcodeTable.all nameNonEmpty = false
    ∧ (opcodeTable.map fun e => e.name)[0x1B]? = some none
    ∧ (opcodeTable.map fun e => e.name)[0xCB]? = some (some "") := by
  refine ⟨by decide, by rfl, by rfl⟩

/-- C1, amended: `opcodeTable`, `opcodeTableCB` and `opcodeTableED` each
have exactly 256 entries; every entry of `opcodeTableCB` and
`opcodeTableED` (modelled from the spec) has a non-empty name; in
`opcodeTable` every entry has a non-empty name except index `0x1B`, where
the key is misspelled `ame` so no name is present, and the four prefix
slots `0xCB`, `0xDD`, `0xED`, `0xFD`, whose name is the empty string. -/
theorem claim_C1_amended :
    opcodeTable.length = 256
    ∧ opcodeTableCB.length = 256
    ∧ opcodeTableED.length = 256
    ∧ opcodeTableCB.all nameNonEmpty = true
    ∧ opcodeTableED.all nameNonEmpty = true
    ∧ ((List.range 256).all fun i =>
        match opcodeTable[i]? with
        | some e =>
          if i == 0x1B then e.name == none && e.ame == some "DEC DE"
          else if i == 0xCB || i == 0xDD || i == 0xED || i == 0xFD then e.name == some ""
          else nameNonEmpty e
        | none => false) = true := by
  refine ⟨by rfl, by rfl, by rfl, by decide, by decide, by decide⟩

/-- C2, counterexample: the `opcodeTable` entry for byte `0x18`
(`JR (PC+e)`) carries an `INT8` operand but no emitter at all — its `ast`
field is absent — so it does not carry the `JR` emitter the claim
describes. -/
theorem claim_C2_counterexample :
    opcodeTable[0x18]? =
      some { name := some "JR (PC+e)", ast := none, operand := some INT8 } := by rfl

/-- C2, amended: entry `0x18` carries an `INT8` operand and no `ast` (a
decoder terminator), so decoding `[0x18, 0xFE]` yields no IR for it; the
`JR` combinator itself produces `if (test) { pc = target; tstates -= 5 }`,
the decoder target for `pc = 0x100` and displacement byte `0xFE` is
`0x100`, and at that target the consequent block assigns `Literal 0x100`
to `pc` and subtracts 5 from `tstates`. -/
theorem claim_C2_amended :
    opcodeTable[0x18]? =
      some { name := some "JR (PC+e)", ast := none, operand := some INT8 }
    ∧ (∀ (test : Expr) (value target currentAddress : Int),
        o.JR test value target currentAddress =
          [.IfStatement test
            (.BlockStatement
              [.ExpressionStatement
                (.AssignmentExpression "=" (.Identifier "pc") (.Literal target)),
               .ExpressionStatement
                (.AssignmentExpression "-=" (.Identifier "tstates") (.Literal 5))])
            none])
    ∧ jrTarget 0x100 0xFE = 0x100
    ∧ (∀ (test : Expr) (value currentAddress : Int),
        o.JR test value (jrTarget 0x100 0xFE) currentAddress =
          [.IfStatement test
            (.BlockStatement
              [.ExpressionStatement
                (.AssignmentExpression "=" (.Identifier "pc") (.Literal 0x100)),
               .ExpressionStatement
                (.AssignmentExpression "-=" (.Identifier "tstates") (.Literal 5))])
            none]) := by
  refine ⟨by rfl, fun _ _ _ _ => rfl, by decide, fun _ _ _ => by rfl⟩

/-- C3: the `XOR` combinator's emitter for register `'a'` (opcode `0xAF`,
`XOR A,A`) produces exactly two statements — `a = Literal 0`, then
`f = Literal (sms.cpu.SZP_TABLE[0])`, the table entry embedded as a
`Literal` node and not as a `MemberExpression` indexing `SZP_TABLE`. -/
theorem claim_C3 :
    (∀ value target currentAddress : Int,
      o.XOR (some "a") value target currentAddress =
        [.ExpressionStatement (.AssignmentExpression "=" (.Register "a") (.Literal 0)),
         .ExpressionStatement
          (.AssignmentExpression "=" (.Register "f") (.Literal (sms_cpu_SZP_TABLE 0)))])
    ∧ opcodeTable[0xAF]? =
        some { name := some "XOR A,A", ast := some (o.XOR (some "a")) } :=
  ⟨fun _ _ _ => rfl, rfl⟩

/-- C4, counterexample: the combinator object `o` provides no member
`LD8_D`, contradicting the claim that every name in the indexed list is
provided by `o`. -/
theorem claim_C4_counterexample : oMembers.contains "LD8_D" = false := by decide

/-- C4, amended: none of the names `LD8_D`, `LD_X`, `INC_X`, `DEC_X`,
`ADD_X`, `OR_X`, `CP_X`, `EX_SP_X`, `JP_X`, `POP`, `PUSH` is a member of
`o`, even though each one is referenced by an `ast:` field of
`generateIndexTable` (as is `LD_NN`, likewise absent), so the populated
index-table entries that use them cannot be built from `o` without
error. -/
theorem claim_C4_amended :
    ((["LD8_D", "LD_X", "INC_X", "DEC_X", "ADD_X", "OR_X", "CP_X",
       "EX_SP_X", "JP_X", "POP", "PUSH"] : List String).all fun s =>
        referencedCombs.contains s && !(oMembers.contains s)) = true
    ∧ (referencedCombs.contains "LD_NN" && !(oMembers.contains "LD_NN")) = true := by
  refine ⟨by decide, by decide⟩

/-- C5, counterexample: entry `0x40` (`LD B,B`) has the `NOOP` emitter —
which consumes no immediate — yet carries the operand tag `UINT8`, and
entry `0xC3` (`JP (nn)`), whose emitter uses the target, carries no
operand tag at all. -/
theorem claim_C5_counterexample :
    opcodeTable[0x40]? =
      some { name := some "LD B,B", ast := some o.NOOP, operand := some UINT8 }
    ∧ opcodeTable[0xC3]? =
      some { name := some "JP (nn)", ast := some (o.JP none none) } :=
  ⟨rfl, rfl⟩

/-- C5, amended: of the entries whose `ast` is the `NOOP` emitter
(`0x00`, `0x40`, `0x49`, `0x52`, `0x5B`, `0x64`, `0x6D`, `0x7F`), all
carry no operand tag except `0x40`, which carries `UINT8`; and none of the
`JP`/`CALL` entries — unconditional `0xC3`/`0xCD` or the sixteen
conditional variants — carries any operand tag, although their emitters
use the target or current address. -/
theorem claim_C5_amended :
    (([0x00, 0x49, 0x52, 0x5B, 0x64, 0x6D, 0x7F] : List Nat).all fun i =>
        (opcodeTable[i]?.map fun e => e.operand) == some none) = true
    ∧ opcodeTable[0x40]? =
        some { name := some "LD B,B", ast := some o.NOOP, operand := some UINT8 }
    ∧ (([0xC3, 0xCD, 0xC2, 0xCA, 0xD2, 0xDA, 0xE2, 0xEA, 0xF2, 0xFA,
         0xC4, 0xCC, 0xD4, 0xDC, 0xE4, 0xEC, 0xF4, 0xFC] : List Nat).all fun i =>
        (opcodeTable[i]?.map fun e => e.operand) == some none) = true := by
  refine ⟨by decide, by rfl, by decide⟩

/-- C6: invoking `LD16` raises the combinator-arity error
`Error('Wrong parameters number')` exactly when the destination-argument
pattern is neither of the two tolerated shapes — both absent, or both the
string `'n'`; in particular the two tolerated shapes never raise. -/
theorem claim_C6 :
    ∀ (srcRegister1 srcRegister2 : String) (dstRegister1 dstRegister2 : Option String),
      o.LD16 srcRegister1 srcRegister2 dstRegister1 dstRegister2 =
          Except.error "Wrong parameters number"
        ↔ ¬((dstRegister1 = none ∧ dstRegister2 = none)
            ∨ (dstRegister1 = some "n" ∧ dstRegister2 = some "n")) := by
  intro s1 s2 d1 d2
  unfold o.LD16
  split_ifs with h1 h2
  · simp [h1.1, h1.2]
  · simp [h2.1, h2.2]
  · simpa using not_or.mpr ⟨h1, h2⟩

/-- C7: the `DJNZ` emitter produces exactly
`b = (b - 1) & 0xFF` followed by `if (b != 0) { pc = target; tstates -= 5 }`,
and that second statement is exactly what the `JR` emitter with test
`b != 0` produces at the same target. -/
theorem claim_C7 :
    ∀ value target currentAddress : Int,
      o.DJNZ value target currentAddress =
        [.ExpressionStatement
          (.AssignmentExpression "=" (.Register "b")
            (.BinaryExpression "&"
              (.BinaryExpression "-" (.Register "b") (.Literal 1)) (.Literal 0xFF))),
         .IfStatement (.BinaryExpression "!=" (.Register "b") (.Literal 0))
          (.BlockStatement
            [.ExpressionStatement
              (.AssignmentExpression "=" (.Identifier "pc") (.Literal target)),
             .ExpressionStatement
              (.AssignmentExpression "-=" (.Identifier "tstates") (.Literal 5))])
          none]
      ∧ (o.DJNZ value target currentAddress).drop 1 =
          o.JR (.BinaryExpression "!=" (.Register "b") (.Literal 0))
            value target currentAddress
      ∧ opcodeTable[0x10]? =
          some { name := some "DJNZ (PC+e)", ast := some o.DJNZ, operand := some INT8 } :=
  fun _ _ _ => ⟨rfl, rfl, rfl⟩

/-- C8: `generateIndexTable "IY"` is, slot for slot, the register-name
renaming (`IX ↦ IY` in mnemonics, `X/x ↦ Y/y` in derived register
arguments) of `generateIndexTable "IX"` — so the two tables populate the
same keys and differ only in register-name literals — and slot `0xCB` of
each table is a reference to the corresponding `DDCB`/`FDCB` sub-table
rather than a descriptor. -/
theorem claim_C8 :
    ((List.range 256).all fun k =>
        decide (generateIndexTable "IY" k =
          Option.map renameIXtoIY (generateIndexTable "IX" k))) = true
    ∧ generateIndexTable "IX" 0xCB = some (.subTable "opcodeTableDDCB")
    ∧ generateIndexTable "IY" 0xCB = some (.subTable "opcodeTableFDCB") := by
  refine ⟨by decide, by decide, by decide⟩

/-- C9: in both index tables, entry `0x76` (the Z80 `HALT` slot) is the
descriptor named `LD (<index>+d),B` built by `LD_X('b', 'i', register2)` —
identical to entry `0x70` — and no slot of either table carries a `HALT`
mnemonic. -/
theorem claim_C9 :
    generateIndexTable "IX" 0x76 =
      some (.descr "LD (IX+d),B" ⟨"LD_X", ["b", "i", "X"]⟩ none)
    ∧ generateIndexTable "IY" 0x76 =
      some (.descr "LD (IY+d),B" ⟨"LD_X", ["b", "i", "Y"]⟩ none)
    ∧ generateIndexTable "IX" 0x76 = generateIndexTable "IX" 0x70
    ∧ generateIndexTable "IY" 0x76 = generateIndexTable "IY" 0x70
    ∧ ((List.range 256).all fun k =>
        slotNoHALT (generateIndexTable "IX" k)
          && slotNoHALT (generateIndexTable "IY" k)) = true := by
  refine ⟨by decide, by decide, by decide, by decide, by decide⟩

/-- C10: the `LD_WRITE_MEM('n','n',hi,lo)` emitter (`LD (nn),HL`, opcode
`0x22`) embeds the second (high-byte) write's address as the literal
`value + 1` computed at emit time with no 16-bit wraparound: at
`value = 0xFFFF` the embedded address is the out-of-range literal
`0x10000`, not `0x0000`. -/
theorem claim_C10 :
    (∀ value target currentAddress : Int,
      o.LD_WRITE_MEM "n" "n" (some "h") (some "l") value target currentAddress =
        [.ExpressionStatement
          (.CallExpression "writeMem" [.Literal value, .Register "l"]),
         .ExpressionStatement
          (.CallExpression "writeMem" [.Literal (value + 1), .Register "h"])])
    ∧ o.LD_WRITE_MEM "n" "n" (some "h") (some "l") 0xFFFF 0 0 =
        [.ExpressionStatement
          (.CallExpression "writeMem" [.Literal 0xFFFF, .Register "l"]),
         .ExpressionStatement
          (.CallExpression "writeMem" [.Literal 0x10000, .Register "h"])]
    ∧ (0x10000 : Int) ≠ 0
    ∧ opcodeTable[0x22]? =
        some { name := some "LD (nn),HL",
               ast := some (o.LD_WRITE_MEM "n" "n" (some "h") (some "l")),
               operand := some UINT16 } := by
  refine ⟨fun _ _ _ => rfl, by rfl, by decide, by rfl⟩

end JsSMS
